import Mathlib

/-
  A shallow embedding of the searchbot backend (src/app/main.py) and
  theorems checking its specification.

  The pipeline embedded here: `search_web` (source fetch + filter),
  `get_llm_completion` (completion client), `generate_answer`
  (prompt assembly + completion call), `post_messages` (the chat-mode
  answer endpoint, POST /messages) and `get_messages` (GET /messages).
  The persistence gateway (the EdgeQL query modules) and the web
  fetcher (`app.web.fetch_web_sources`) are not part of the provided
  sources; they are modelled from the spec where noted.
-/

deriving instance DecidableEq for Except

namespace App

/-- A fetched web document: a url plus optionally extracted text
(`app.web.WebSource`; fields as used by `main.py` and described in the
spec data model). -/
structure WebSource where
  url : String
  text : Option String
deriving DecidableEq, Repr

/-- A persisted chat message: role, body, citations. The body is optional
because `post_messages` persists `search_result.response`, which may be
absent. -/
structure Message where
  role : String
  body : Option String
  sources : List WebSource
deriving DecidableEq, Repr

/-- The response envelope of the answer pipeline (`SearchResult` pydantic
model: both fields default to None). -/
structure SearchResult where
  response : Option String
  sources : Option (List WebSource)
deriving DecidableEq, Repr

/-- Rendering of an optional string inside a Python f-string:
`None` renders as the literal text "None". -/
def optText : Option String → String
  | some s => s
  | none => "None"

/-- One rendered web-source block of the combined prompt segment:
`prompt += f"Result {i} (URL: {source.url}):\n"; prompt += f"{source.text}\n\n"`. -/
def renderSource (i : Nat) (s : WebSource) : String :=
  "Result " ++ toString i ++ " (URL: " ++ s.url ++ "):\n" ++ optText s.text ++ "\n\n"

/-- The combined query+sources prompt segment built in `generate_answer`:
starts from `f"User search query: {query}\n\nWeb search results:\n"` and
appends one block per enumerated web source. -/
def combinedSegment (searchQuery : String) (sources : List WebSource) : String :=
  (sources.enum).foldl (fun prompt p => prompt ++ renderSource p.1 p.2)
    ("User search query: " ++ searchQuery ++ "\n\nWeb search results:\n")

/-- Concatenation of rendered web-source blocks for an enumerated source
list; used to state what `combinedSegment`'s folding loop produces. -/
def renderBlocks : List (Nat × WebSource) → String
  | [] => ""
  | p :: rest => renderSource p.1 p.2 ++ renderBlocks rest

/-- The fixed system instruction of `generate_answer`. -/
def systemPrompt : String :=
  "You are a helpful assistant that answers user\x27s questions"
    ++ " by finding relevant information in Hacker News threads."
    ++ " When answering the question, describe conversations that people have around the subject,"
    ++ " provided to you as a context, or say i don\x27t know if they are completely irrelevant."

/-- The portion of one entry of the backend JSON response's `candidates`
list that `get_llm_completion` reads: `extractedText` is the value of
`candidates[i]['content']['parts'][0]['text']` when that whole path
exists, and `none` when some step of the lookup is missing (in which
case the Python lookup raises). -/
structure Candidate where
  extractedText : Option String
deriving DecidableEq, Repr

/-- Outcome of the HTTP POST to the generative backend, as observed by
`get_llm_completion`: the request itself raised (network failure),
`raise_for_status` raised (error status), or a JSON body was obtained,
whose `candidates` field is absent/falsy (`none`) or a list. -/
inductive BackendOutcome where
  | networkFailure : BackendOutcome
  | httpStatusError : Nat → BackendOutcome
  | ok : Option (List Candidate) → BackendOutcome
deriving DecidableEq, Repr

/-- The environment `get_llm_completion` runs in: the GEMINI_API_KEY
variable (absent or a string) and the backend's behaviour. -/
structure LlmEnv where
  apiKey : Option String
  backend : BackendOutcome
deriving DecidableEq, Repr

/-- Python exceptions that escape `get_llm_completion`: the ValueError
raised for a missing/empty API key, and the KeyError/IndexError raised
when a present, non-empty `candidates` list lacks the nested
content/parts/text path. -/
inductive PyError where
  | valueError : PyError
  | keyError : PyError
deriving DecidableEq, Repr

/-- The JSON body POSTed to the generative backend: a single `contents`
entry holding one `parts` list; each part is `{"text": ...}` and is
represented by its text value. -/
structure GeminiRequest where
  parts : List (Option String)
deriving DecidableEq, Repr

/-- `get_llm_completion(system_prompt, messages)`: checks the API key
(raising ValueError when it is absent or empty, before any request),
then POSTs `{"contents": [{"parts": [{"text": system_prompt}, *messages]}]}`.
A RequestException (network failure or error status) is caught and the
function falls through returning None; a parsed body whose `candidates`
is absent or empty prints a notice and returns None; otherwise the
nested text of the first candidate is returned (raising when the nested
path is missing). The first component records the request actually
issued, if any. -/
def get_llm_completion (system_prompt : String) (messages : List (Option String))
    (env : LlmEnv) : Option GeminiRequest × Except PyError (Option String) :=
  match env.apiKey with
  | none => (none, .error .valueError)
  | some key =>
    if key = "" then
      (none, .error .valueError)
    else
      (some ⟨some system_prompt :: messages⟩,
        match env.backend with
        | .networkFailure => .ok none
        | .httpStatusError _ => .ok none
        | .ok none => .ok none
        | .ok (some []) => .ok none
        | .ok (some (c :: _)) =>
          match c.extractedText with
          | some t => .ok (some t)
          | none => .error .keyError)

/-- The arguments `generate_answer` passes to `get_llm_completion`:
the system prompt and the ordered message (segment) list. -/
structure LlmCall where
  system : String
  messages : List (Option String)
deriving DecidableEq, Repr

/-- `search_web(query)`: fetch up to 5 sources via
`fetch_web_sources(query, limit=5)` and keep those whose text is not
None. The fetcher lives in `app.web` (not among the provided sources),
so it is passed in as a function argument. -/
def search_web (fetch_web_sources : String → Nat → List WebSource)
    (searchQuery : String) : List WebSource :=
  (fetch_web_sources searchQuery 5).filter (fun s => s.text.isSome)

/-- `generate_answer(query, chat_history, web_sources)`: builds the
combined query+sources prompt, the message list (one `{"text": body}`
per history message, in order, then the prompt), calls
`get_llm_completion`, and wraps the response and the given sources in a
SearchResult. The first component records the call made to the
completion client; the second is the returned SearchResult or the
escaping exception. -/
def generate_answer (searchQuery : String) (chat_history : List Message)
    (web_sources : List WebSource) (env : LlmEnv) :
    LlmCall × Except PyError SearchResult :=
  let prompt := combinedSegment searchQuery web_sources
  let messages := chat_history.map (fun m => m.body) ++ [some prompt]
  let llm := (get_llm_completion systemPrompt messages env).2
  (⟨systemPrompt, messages⟩, llm.map (fun r => { response := r, sources := some web_sources }))

/-- Modelled from the spec: the Persistence Gateway's message store (the
EdgeQL query modules are not among the provided sources). Messages are
kept keyed by (username, chat_id) in insertion order, matching the
spec's "insertion order == conversational order" and the oldest-first
ordering of `getMessages`. -/
structure Store where
  rows : List ((String × String) × Message)
deriving DecidableEq, Repr

/-- Modelled from the spec: `getMessages(username, chatId)` returns the
chat's ordered sequence of messages, oldest first. -/
def getMessagesQ (st : Store) (username chat_id : String) : List Message :=
  (st.rows.filter (fun r => r.1 = (username, chat_id))).map Prod.snd

/-- Modelled from the spec: `addMessage(username, chatId, role, body,
sources)` appends one message to the chat. -/
def addMessageQ (st : Store) (username chat_id role : String)
    (body : Option String) (sources : List WebSource) : Store :=
  ⟨st.rows ++ [((username, chat_id), ⟨role, body, sources⟩)]⟩

/-- Errors surfaced at the HTTP boundary. -/
inductive ApiError where
  | notFound : ApiError
  | badRequest : ApiError
deriving DecidableEq, Repr

/-- `GET /messages` (`get_messages` endpoint): a single read of the
chat's messages; the endpoint performs no existence check and no write. -/
def get_messages (st : Store) (username chat_id : String) :
    Except ApiError (List Message) × Store :=
  (.ok (getMessagesQ st username chat_id), st)

/-- The observable outcome of one `POST /messages` call: the completion
call made, the HTTP-level result (SearchResult or escaping exception),
and the resulting store. -/
structure PostMessagesResult where
  llmCall : LlmCall
  result : Except PyError SearchResult
  store : Store
deriving Repr

/-- `POST /messages` (`post_messages` endpoint): load the chat history,
persist the user message (body=query, sources=[]), fetch and filter web
sources, generate the answer from the pre-update history, persist the
assistant message (body=response, sources=result sources), and return
the SearchResult. If `generate_answer` raises, the exception escapes
after the user message was persisted. -/
def post_messages (st : Store) (username chat_id : String) (searchQuery : String)
    (fetch_web_sources : String → Nat → List WebSource) (env : LlmEnv) :
    PostMessagesResult :=
  let chat_history := getMessagesQ st username chat_id
  let st1 := addMessageQ st username chat_id "user" (some searchQuery) []
  let web_sources := search_web fetch_web_sources searchQuery
  let ga := generate_answer searchQuery chat_history web_sources env
  match ga.2 with
  | .error e => ⟨ga.1, .error e, st1⟩
  | .ok sr =>
      ⟨ga.1, .ok sr,
        addMessageQ st1 username chat_id "assistant" sr.response (sr.sources.getD [])⟩

/-- A concrete store holding two prior messages of the chat
("alice", "c1"), used to instantiate theorems with hypotheses. -/
def wStore : Store :=
  ⟨[(("alice", "c1"), ⟨"user", some "hi", []⟩),
    (("alice", "c1"), ⟨"assistant", some "hello", []⟩)]⟩

/-- A concrete fetcher returning one source with text and one without. -/
def wFetch : String → Nat → List WebSource :=
  fun _ _ => [⟨"u1", some "t1"⟩, ⟨"u2", none⟩]

/-- A concrete completion environment: key present, backend answering
with the single text "ans". -/
def wEnv : LlmEnv := ⟨some "k", .ok (some [⟨some "ans"⟩])⟩

/-- The SearchResult the pipeline produces under `wFetch` and `wEnv`. -/
def wSr : SearchResult := ⟨some "ans", some [⟨"u1", some "t1"⟩]⟩

lemma foldl_renderSource (l : List (Nat × WebSource)) (init : String) :
    l.foldl (fun s p => s ++ renderSource p.1 p.2) init = init ++ renderBlocks l := by
  induction l generalizing init with
  | nil => simp [renderBlocks]
  | cons p rest ih => simp [renderBlocks, ih, String.append_assoc]

lemma combinedSegment_eq (q : String) (ws : List WebSource) :
    combinedSegment q ws
      = "User search query: " ++ q ++ "\n\nWeb search results:\n"
          ++ renderBlocks ws.enum := by
  rw [combinedSegment, foldl_renderSource]

lemma getMessagesQ_addMessageQ_same (st : Store) (u c r : String)
    (b : Option String) (s : List WebSource) :
    getMessagesQ (addMessageQ st u c r b s) u c
      = getMessagesQ st u c ++ [⟨r, b, s⟩] := by
  simp [getMessagesQ, addMessageQ, List.filter_append]

lemma generate_answer_fst (q : String) (hist : List Message)
    (ws : List WebSource) (env : LlmEnv) :
    (generate_answer q hist ws env).1
      = ⟨systemPrompt, hist.map (fun m => m.body) ++ [some (combinedSegment q ws)]⟩ :=
  rfl

lemma generate_answer_ok_sources (q : String) (hist : List Message)
    (ws : List WebSource) (env : LlmEnv) (sr : SearchResult)
    (h : (generate_answer q hist ws env).2 = .ok sr) : sr.sources = some ws := by
  simp only [generate_answer] at h
  cases hllm : (get_llm_completion systemPrompt
      (hist.map (fun m => m.body) ++ [some (combinedSegment q ws)]) env).2 with
  | error e => rw [hllm] at h; simp [Except.map] at h
  | ok r =>
      rw [hllm] at h
      have hh : ({ response := r, sources := some ws } : SearchResult) = sr := by
        simpa [Except.map] using h
      rw [← hh]

lemma post_messages_llmCall (st : Store) (u c q : String)
    (fetch : String → Nat → List WebSource) (env : LlmEnv) :
    (post_messages st u c q fetch env).llmCall
      = ⟨systemPrompt, (getMessagesQ st u c).map (fun m => m.body)
          ++ [some (combinedSegment q (search_web fetch q))]⟩ := by
  simp only [post_messages]
  split <;> exact generate_answer_fst q (getMessagesQ st u c) (search_web fetch q) env

lemma post_messages_result_eq (st : Store) (u c q : String)
    (fetch : String → Nat → List WebSource) (env : LlmEnv) :
    (post_messages st u c q fetch env).result
      = (generate_answer q (getMessagesQ st u c) (search_web fetch q) env).2 := by
  simp only [post_messages]
  split <;> simp_all

lemma post_messages_ok_store (st : Store) (u c q : String)
    (fetch : String → Nat → List WebSource) (env : LlmEnv) (sr : SearchResult)
    (h : (post_messages st u c q fetch env).result = .ok sr) :
    (post_messages st u c q fetch env).store
      = addMessageQ (addMessageQ st u c "user" (some q) []) u c "assistant"
          sr.response (sr.sources.getD []) := by
  simp only [post_messages] at h ⊢
  split at h
  · simp at h
  · next sr2 heq =>
      simp only [Except.ok.injEq] at h
      subst h
      simp [heq]

/-- Claim C1: a successful `POST /messages` call on a chat with prior
messages persists exactly two new messages — first a user message whose
body is the query and whose sources are empty, then an assistant message
whose body is the completion response and whose sources are the filtered
web sources — so that `getMessages` afterwards returns the prior
messages followed by the new user message and then the new assistant
message, in that order. -/
theorem claim_c1 (st : Store) (u c q : String)
    (fetch : String → Nat → List WebSource) (env : LlmEnv) (sr : SearchResult)
    (h : (post_messages st u c q fetch env).result = .ok sr) :
    (post_messages st u c q fetch env).store.rows
        = st.rows ++ [((u, c), ⟨"user", some q, []⟩),
            ((u, c), ⟨"assistant", sr.response, search_web fetch q⟩)]
    ∧ getMessagesQ (post_messages st u c q fetch env).store u c
        = getMessagesQ st u c
            ++ [⟨"user", some q, []⟩,
                ⟨"assistant", sr.response, search_web fetch q⟩]
    ∧ sr.sources = some (search_web fetch q) := by
  have hga : (generate_answer q (getMessagesQ st u c) (search_web fetch q) env).2
      = .ok sr := by
    rw [← post_messages_result_eq]; exact h
  have hsrc := generate_answer_ok_sources q (getMessagesQ st u c)
    (search_web fetch q) env sr hga
  have hstore := post_messages_ok_store st u c q fetch env sr h
  refine ⟨?_, ?_, hsrc⟩
  · rw [hstore, hsrc]
    simp [addMessageQ]
  · rw [hstore, getMessagesQ_addMessageQ_same, getMessagesQ_addMessageQ_same, hsrc]
    simp

/-- Witness for C1 at a concrete chat with two prior messages, a fetcher
returning one textful and one textless source, and a backend answering
"ans". -/
theorem claim_c1_witness :
    (post_messages wStore "alice" "c1" "q" wFetch wEnv).result = Except.ok wSr
  ∧ getMessagesQ (post_messages wStore "alice" "c1" "q" wFetch wEnv).store "alice" "c1"
      = getMessagesQ wStore "alice" "c1"
          ++ [⟨"user", some "q", []⟩,
              ⟨"assistant", some "ans", [⟨"u1", some "t1"⟩]⟩] :=
  ⟨rfl, (claim_c1 wStore "alice" "c1" "q" wFetch wEnv wSr rfl).2.1⟩

/-- Claim C2: the sources used in the prompt and returned in the
SearchResult are exactly the fetched entries whose text is non-null,
kept in their original order (a sublist of the fetch result) and indexed
from 0; no null-text WebSource reaches the prompt or the result. -/
theorem claim_c2 (fetch : String → Nat → List WebSource) (q : String)
    (hist : List Message) (env : LlmEnv) :
    search_web fetch q = (fetch q 5).filter (fun s => s.text.isSome)
    ∧ (∀ s ∈ search_web fetch q, s.text ≠ none)
    ∧ List.Sublist (search_web fetch q) (fetch q 5)
    ∧ (∀ s : WebSource, s ∈ search_web fetch q ↔ s ∈ fetch q 5 ∧ s.text ≠ none)
    ∧ (generate_answer q hist (search_web fetch q) env).1.messages.getLast?
        = some (some (combinedSegment q (search_web fetch q)))
    ∧ (search_web fetch q).enum.map Prod.fst = List.range (search_web fetch q).length
    ∧ ∀ sr : SearchResult,
        (generate_answer q hist (search_web fetch q) env).2 = .ok sr →
          sr.sources = some (search_web fetch q) := by
  refine ⟨rfl, ?_, List.filter_sublist _, ?_, ?_, List.enum_map_fst _, ?_⟩
  · intro s hs
    have := (List.mem_filter.mp hs).2
    simpa [Option.isSome_iff_ne_none] using this
  · intro s
    rw [search_web, List.mem_filter, Option.isSome_iff_ne_none]
  · rw [generate_answer_fst]
    exact List.getLast?_concat _
  · intro sr h
    exact generate_answer_ok_sources q hist (search_web fetch q) env sr h

/-- Witness for C2 at the concrete fetcher and environment: the
null-text source u2 is dropped and the result carries exactly u1. -/
theorem claim_c2_witness :
    (generate_answer "q" [] (search_web wFetch "q") wEnv).2 = Except.ok wSr
  ∧ wSr.sources = some (search_web wFetch "q") :=
  ⟨rfl, (claim_c2 wFetch "q" [] wEnv).2.2.2.2.2.2 wSr rfl⟩

/-- Claim C3 counterexample: the combined segment does not consist of
the literal user query followed by the rendered source blocks alone; the
code wraps them in framing text, so with query "q" and no sources the
segment is not "q". -/
theorem claim_c3_counterexample :
    combinedSegment "q" [] ≠ "q"
  ∧ combinedSegment "q" [] = "User search query: q\n\nWeb search results:\n" :=
  ⟨by decide, by decide⟩

/-- Claim C3 amended: the combined segment is the literal prefix
"User search query: " followed by the query, the literal
"\n\nWeb search results:\n", and then each filtered WebSource rendered
exactly as `Result <index> (URL: <url>):\n<text>\n\n`, with the index
starting at 0 and increasing in source order. -/
theorem claim_c3_amended (q : String) (ws : List WebSource) :
    combinedSegment q ws
      = "User search query: " ++ q ++ "\n\nWeb search results:\n"
          ++ renderBlocks ws.enum
    ∧ ws.enum.map Prod.fst = List.range ws.length
    ∧ renderBlocks [] = ""
    ∧ ∀ (i : Nat) (s : WebSource) (rest : List (Nat × WebSource)),
        renderBlocks ((i, s) :: rest)
          = "Result " ++ toString i ++ " (URL: " ++ s.url ++ "):\n"
              ++ optText s.text ++ "\n\n" ++ renderBlocks rest := by
  refine ⟨combinedSegment_eq q ws, List.enum_map_fst _, rfl, ?_⟩
  intro i s rest
  simp [renderBlocks, renderSource, String.append_assoc]

/-- Claim C4: the prompt `POST /messages` sends to the completion client
is assembled from the chat history loaded before the new user message is
persisted — the segment list is exactly the bodies of the pre-update
history, oldest first, plus the combined query+sources segment. -/
theorem claim_c4 (st : Store) (u c q : String)
    (fetch : String → Nat → List WebSource) (env : LlmEnv) :
    (post_messages st u c q fetch env).llmCall.messages
      = (getMessagesQ st u c).map (fun m => m.body)
          ++ [some (combinedSegment q (search_web fetch q))]
    ∧ (post_messages st u c q fetch env).llmCall.messages.length
      = (getMessagesQ st u c).length + 1 := by
  rw [post_messages_llmCall]
  simp

/-- Claim C5 counterexample: a missing credential (CONFIG_ERROR) is not
absorbed by the orchestrator — `generate_answer` propagates the
ValueError instead of returning a SearchResult with an absent response;
likewise a first candidate lacking the nested content fields propagates
a lookup error. -/
theorem claim_c5_counterexample :
    (generate_answer "q" [] [] ⟨none, BackendOutcome.ok none⟩).2
        = Except.error PyError.valueError
  ∧ (generate_answer "q" [] []
        ⟨some "k", BackendOutcome.ok (some [⟨none⟩])⟩).2
        = Except.error PyError.keyError :=
  ⟨rfl, rfl⟩

/-- Claim C5 amended: UPSTREAM_FAILURE signals of the completion backend
(network error, error status, or a response whose candidates list is
absent or empty) are absorbed: the orchestrator returns a SearchResult
with an absent response and the filtered web sources. A CONFIG_ERROR
(missing credential) is not caught and propagates as an error to the
caller. -/
theorem claim_c5_amended (q : String) (hist : List Message)
    (ws : List WebSource) (key : String) (hkey : key ≠ "") (status : Nat)
    (backend : BackendOutcome) :
    (generate_answer q hist ws ⟨some key, .networkFailure⟩).2
        = .ok ⟨none, some ws⟩
    ∧ (generate_answer q hist ws ⟨some key, .httpStatusError status⟩).2
        = .ok ⟨none, some ws⟩
    ∧ (generate_answer q hist ws ⟨some key, .ok none⟩).2 = .ok ⟨none, some ws⟩
    ∧ (generate_answer q hist ws ⟨some key, .ok (some [])⟩).2
        = .ok ⟨none, some ws⟩
    ∧ (generate_answer q hist ws ⟨none, backend⟩).2 = .error .valueError := by
  refine ⟨?_, ?_, ?_, ?_, ?_⟩ <;>
    simp [generate_answer, get_llm_completion, hkey, Except.map]

/-- Witness for the amended C5 with the concrete key "k" and a network
failure: the orchestrator returns an ok SearchResult with no response. -/
theorem claim_c5_witness :
    ("k" : String) ≠ ""
  ∧ (generate_answer "q" [] [] ⟨some "k", BackendOutcome.networkFailure⟩).2
      = Except.ok ⟨none, some []⟩ :=
  ⟨by decide,
    (claim_c5_amended "q" [] [] "k" (by decide) 0 BackendOutcome.networkFailure).1⟩

/-- Claim C6: assembling a prompt with an empty source list produces
exactly len(H)+1 ordered segments — one per history message (its body
only, oldest first) followed by a final query-only segment containing no
rendered Result blocks. -/
theorem claim_c6 (q : String) (hist : List Message) (env : LlmEnv) :
    (generate_answer q hist [] env).1.messages
        = hist.map (fun m => m.body) ++ [some (combinedSegment q [])]
    ∧ (generate_answer q hist [] env).1.messages.length = hist.length + 1
    ∧ combinedSegment q []
        = "User search query: " ++ q ++ "\n\nWeb search results:\n"
    ∧ renderBlocks (([] : List WebSource)).enum = "" := by
  refine ⟨by rw [generate_answer_fst], ?_, rfl, rfl⟩
  rw [generate_answer_fst]
  simp

/-- Claim C7 counterexample: the system instruction is not kept out of
the transmitted part list — the request body's single `parts` list is
the system instruction prepended to the history/query segments, not the
segments alone. -/
theorem claim_c7_counterexample :
    (get_llm_completion "sys" [some "h1", some "q"]
        ⟨some "k", BackendOutcome.ok none⟩).1
      = some ⟨[some "sys", some "h1", some "q"]⟩
  ∧ (get_llm_completion "sys" [some "h1", some "q"]
        ⟨some "k", BackendOutcome.ok none⟩).1
      ≠ some ⟨[some "h1", some "q"]⟩ :=
  ⟨rfl, by decide⟩

/-- Claim C7 amended: the system instruction reaches the completion
client as a separate argument, but the HTTP request carries it inside
the same ordered parts list as the segments, prepended as the first text
part. -/
theorem claim_c7_amended (sys : String) (messages : List (Option String))
    (key : String) (hkey : key ≠ "") (backend : BackendOutcome) :
    (get_llm_completion sys messages ⟨some key, backend⟩).1
      = some ⟨some sys :: messages⟩ := by
  simp [get_llm_completion, hkey]

/-- Witness for the amended C7 at a concrete key and one segment. -/
theorem claim_c7_witness :
    ("k" : String) ≠ ""
  ∧ (get_llm_completion "sys" [some "q"]
        ⟨some "k", BackendOutcome.networkFailure⟩).1
      = some ⟨[some "sys", some "q"]⟩ :=
  ⟨by decide,
    claim_c7_amended "sys" [some "q"] "k" (by decide) BackendOutcome.networkFailure⟩

/-- Claim C8 counterexample: `GET /messages` for a chat that does not
exist does not fail with NOT_FOUND — the endpoint performs no existence
check and returns an ok empty list. -/
theorem claim_c8_counterexample :
    (get_messages ⟨[]⟩ "bob" "missing").1 ≠ Except.error ApiError.notFound
  ∧ (get_messages ⟨[]⟩ "bob" "missing").1 = Except.ok [] :=
  ⟨by decide, rfl⟩

/-- Claim C8 amended: a `GET /messages` request for a chat or user with
no stored messages returns an ok empty list (no NOT_FOUND error) and
persists zero messages as a side effect (the store is unchanged). -/
theorem claim_c8_amended (st : Store) (u c : String)
    (h : getMessagesQ st u c = []) :
    get_messages st u c = (Except.ok [], st) := by
  simp [get_messages, h]

/-- Witness for the amended C8 at the empty store and an unknown chat. -/
theorem claim_c8_witness :
    getMessagesQ ⟨[]⟩ "bob" "missing" = []
  ∧ get_messages ⟨[]⟩ "bob" "missing" = (Except.ok [], (⟨[]⟩ : Store)) :=
  ⟨rfl, claim_c8_amended ⟨[]⟩ "bob" "missing" rfl⟩

/-- Claim C9: when the completion-backend credential is absent from the
environment, the completion client fails fast with a configuration error
(ValueError) and issues no HTTP request to the generative backend. -/
theorem claim_c9 (sys : String) (messages : List (Option String))
    (env : LlmEnv) (h : env.apiKey = none) :
    get_llm_completion sys messages env = (none, Except.error PyError.valueError) := by
  obtain ⟨ak, bk⟩ := env
  simp only at h
  subst h
  rfl

/-- Witness for C9 at a concrete environment without a credential. -/
theorem claim_c9_witness :
    (LlmEnv.mk none BackendOutcome.networkFailure).apiKey = none
  ∧ get_llm_completion "sys" [] (LlmEnv.mk none BackendOutcome.networkFailure)
      = (none, Except.error PyError.valueError) :=
  ⟨rfl, claim_c9 "sys" [] (LlmEnv.mk none BackendOutcome.networkFailure) rfl⟩

/-- Claim C10: the source fetcher is invoked with the fixed limit 5, so
if the fetcher honors its limit the filtered source list — and hence the
source list of any returned SearchResult — never exceeds 5 entries. -/
theorem claim_c10 (fetch : String → Nat → List WebSource) (q : String)
    (hfetch : ∀ (q2 : String) (n : Nat), (fetch q2 n).length ≤ n) :
    search_web fetch q = (fetch q 5).filter (fun s => s.text.isSome)
    ∧ (search_web fetch q).length ≤ 5
    ∧ ∀ (hist : List Message) (env : LlmEnv) (sr : SearchResult),
        (generate_answer q hist (search_web fetch q) env).2 = .ok sr →
          ∃ l, sr.sources = some l ∧ l.length ≤ 5 := by
  have hlen : (search_web fetch q).length ≤ 5 :=
    le_trans (List.length_filter_le _ _) (hfetch q 5)
  refine ⟨rfl, hlen, ?_⟩
  intro hist env sr h
  exact ⟨search_web fetch q,
    generate_answer_ok_sources q hist (search_web fetch q) env sr h, hlen⟩

/-- Witness for C10 with a concrete limit-honoring fetcher. -/
theorem claim_c10_witness :
    (∀ (q2 : String) (n : Nat),
        ((fun (_ : String) (_ : Nat) => ([] : List WebSource)) q2 n).length ≤ n)
  ∧ (search_web (fun _ _ => []) "q").length ≤ 5 :=
  ⟨fun _ _ => Nat.zero_le _,
    (claim_c10 (fun _ _ => []) "q" (fun _ _ => Nat.zero_le _)).2.1⟩

end App
